import Mathlib

/-!
Verification of the HTTP service in src/app/main.py: a FastAPI
application registering two routes, GET / handled by read_root and
GET /hello/(name) handled by read_item.  The handlers are embedded from
the source; the dispatch, path-parameter matching and URL-decoding are
framework defaults, modelled from the spec.
-/

/-- Minimal JSON values: the application only ever builds objects whose
fields are strings. -/
inductive Json where
  | str : String → Json
  | obj : List (String × Json) → Json

/-- An HTTP request as the router sees it: the method, the
percent-decoded path, and the inputs the handlers never read — headers,
query string and request body. -/
structure Request where
  method : String
  path : String
  headers : List (String × String)
  query : String
  body : String

/-- An HTTP response: a status code and an optional JSON body. -/
structure Response where
  status : Nat
  body : Option Json

/-- Embeds read_root from src/app/main.py: the handler registered on
GET /, returning a JSON object whose message field is the welcome
string. -/
def read_root : Json :=
  Json.obj [("message", Json.str "Welcome to the FastAPI ECS Fargate app!")]

/-- Embeds read_item from src/app/main.py: the handler registered on
GET /hello/(name), returning a JSON object whose message field is the
f-string interpolation of name, substituted verbatim. -/
def read_item (name : String) : Json :=
  Json.obj [("message", Json.str ("Hello " ++ name ++ "!"))]

/-- Which registered route a path matches: the root route, or the hello
route together with its captured name parameter. -/
inductive RouteMatch where
  | root : RouteMatch
  | hello : String → RouteMatch
deriving DecidableEq

/-- Modelled from the spec: framework-default path matching for the two
registered routes (the route table is not in src/, only the decorators
that build it).  The path "/" matches the root route; a path "/hello/"
followed by a single non-empty segment containing no further path
separator matches the hello route, binding name to that segment. -/
def matchPath : List Char → Option RouteMatch
  | ['/'] => some RouteMatch.root
  | '/' :: 'h' :: 'e' :: 'l' :: 'l' :: 'o' :: '/' :: rest =>
      if rest = [] ∨ '/' ∈ rest then none
      else some (RouteMatch.hello (String.mk rest))
  | _ => none

/-- Modelled from the spec: framework-default dispatch.  A matched route
with method GET runs its handler with status 200; a matched route with
any other method is answered 405 with no custom body; an unmatched path
is answered 404 with no custom body. -/
def route (req : Request) : Response :=
  match matchPath req.path.data with
  | some RouteMatch.root =>
      if req.method = "GET" then Response.mk 200 (some read_root)
      else Response.mk 405 none
  | some (RouteMatch.hello name) =>
      if req.method = "GET" then Response.mk 200 (some (read_item name))
      else Response.mk 405 none
  | none => Response.mk 404 none

/-- Modelled from the spec: numeric value of a hexadecimal digit
character in a percent escape, computed from its character code (48-57
are the decimal digits, 65-70 the uppercase and 97-102 the lowercase
hexadecimal letters). -/
def hexVal (c : Char) : Option Nat :=
  let n := c.toNat
  if 48 ≤ n ∧ n ≤ 57 then some (n - 48)
  else if 65 ≤ n ∧ n ≤ 70 then some (n - 55)
  else if 97 ≤ n ∧ n ≤ 102 then some (n - 87)
  else none

/-- Modelled from the spec: the byte sequence denoted by a URL-encoded
string, where each %XX escape stands for the byte XX and every other
(ASCII) character stands for its own code. -/
def percentBytes : List Char → Option (List Nat)
  | [] => some []
  | '%' :: h :: l :: rest =>
      match hexVal h, hexVal l, percentBytes rest with
      | some hv, some lv, some bs => some ((16 * hv + lv) :: bs)
      | _, _, _ => none
  | '%' :: _ => none
  | c :: rest =>
      if c.toNat < 128 then
        match percentBytes rest with
        | some bs => some (c.toNat :: bs)
        | none => none
      else none

/-- Modelled from the spec: value carried by a UTF-8 continuation
byte. -/
def contVal (b : Nat) : Option Nat :=
  if 128 ≤ b ∧ b < 192 then some (b - 128) else none

/-- Modelled from the spec: UTF-8 decoding of a byte sequence, rejecting
malformed, overlong, surrogate and out-of-range sequences. -/
def utf8Decode : List Nat → Option (List Char)
  | [] => some []
  | b :: rest =>
    if b < 128 then
      match utf8Decode rest with
      | some cs => some (Char.ofNat b :: cs)
      | none => none
    else if b < 194 then none
    else if b < 224 then
      match rest with
      | b2 :: rest2 =>
        match contVal b2, utf8Decode rest2 with
        | some v2, some cs => some (Char.ofNat ((b - 192) * 64 + v2) :: cs)
        | _, _ => none
      | [] => none
    else if b < 240 then
      match rest with
      | b2 :: b3 :: rest3 =>
        match contVal b2, contVal b3 with
        | some v2, some v3 =>
          if (b - 224) * 4096 + v2 * 64 + v3 < 2048 ∨
              (55296 ≤ (b - 224) * 4096 + v2 * 64 + v3 ∧
                (b - 224) * 4096 + v2 * 64 + v3 ≤ 57343) then none
          else
            match utf8Decode rest3 with
            | some cs => some (Char.ofNat ((b - 224) * 4096 + v2 * 64 + v3) :: cs)
            | none => none
        | _, _ => none
      | _ => none
    else if b < 245 then
      match rest with
      | b2 :: b3 :: b4 :: rest4 =>
        match contVal b2, contVal b3, contVal b4 with
        | some v2, some v3, some v4 =>
          if (b - 240) * 262144 + v2 * 4096 + v3 * 64 + v4 < 65536 ∨
              1114111 < (b - 240) * 262144 + v2 * 4096 + v3 * 64 + v4 then none
          else
            match utf8Decode rest4 with
            | some cs =>
                some (Char.ofNat ((b - 240) * 262144 + v2 * 4096 + v3 * 64 + v4) :: cs)
            | none => none
        | _, _, _ => none
      | _ => none
    else none

/-- Modelled from the spec: URL-decoding of a request path, as the
hosting server performs it before routing. -/
def percentDecode (s : String) : Option String :=
  match percentBytes s.data with
  | some bs =>
    match utf8Decode bs with
    | some cs => some (String.mk cs)
    | none => none
  | none => none

/-- Modelled from the spec: the request pipeline as the hosting server
runs it, URL-decoding the raw path and then routing; a raw path that is
not valid percent-encoded UTF-8 is rejected by the server with 400. -/
def handleRaw (method rawPath : String) : Response :=
  match percentDecode rawPath with
  | some p => route (Request.mk method p [] "" "")
  | none => Response.mk 400 none

/-- State carried across requests: src/app/main.py defines none. -/
def AppState : Type := Unit

/-- One request-handling step of the server loop.  The handlers touch no
state, so the state is returned unchanged beside the routed response. -/
def handleStep (st : AppState) (req : Request) : AppState × Response :=
  (st, route req)

/-- The server loop over a trace of requests, threading the state. -/
def runServer (st : AppState) : List Request → List Response
  | [] => []
  | r :: rs => (handleStep st r).2 :: runServer (handleStep st r).1 rs

/-- Claim C2: every request with method GET and path "/" is answered 200 with
body exactly the JSON object whose message field is
"Welcome to the FastAPI ECS Fargate app!", whatever its headers, query
string or body. -/
theorem root_get_ok (req : Request)
    (hm : req.method = "GET") (hp : req.path = "/") :
    route req =
      Response.mk 200
        (some (Json.obj
          [("message", Json.str "Welcome to the FastAPI ECS Fargate app!")])) := by
  simp [route, hp, hm, matchPath, read_root]

/-- Witness for root_get_ok at a concrete request. -/
theorem root_get_ok_witness :
    route (Request.mk "GET" "/" [("accept", "text/html")] "q=1" "ignored") =
      Response.mk 200
        (some (Json.obj
          [("message", Json.str "Welcome to the FastAPI ECS Fargate app!")])) :=
  root_get_ok (Request.mk "GET" "/" [("accept", "text/html")] "q=1" "ignored")
    rfl rfl

/-- Claim C1: for every non-empty string s containing no path-separator
character, a GET request whose decoded path is "/hello/" followed by s
is answered 200 with body exactly the JSON object whose message field is
"Hello " ++ s ++ "!", the segment substituted verbatim with no escaping,
sanitization or length limit. -/
theorem hello_get_ok (req : Request) (s : String)
    (hm : req.method = "GET") (hp : req.path = "/hello/" ++ s)
    (hne : s.data ≠ []) (hsep : '/' ∉ s.data) :
    route req =
      Response.mk 200
        (some (Json.obj [("message", Json.str ("Hello " ++ s ++ "!"))])) := by
  have hd : req.path.data =
      '/' :: 'h' :: 'e' :: 'l' :: 'l' :: 'o' :: '/' :: s.data := by
    rw [hp]
    exact rfl
  have hmp : matchPath req.path.data = some (RouteMatch.hello s) := by
    rw [hd]
    show (if s.data = [] ∨ '/' ∈ s.data then none
          else some (RouteMatch.hello (String.mk s.data))) =
        some (RouteMatch.hello s)
    rw [if_neg]
    rintro (h | h)
    · exact hne h
    · exact hsep h
  simp [route, hmp, hm, read_item]

/-- Witness for hello_get_ok at the concrete segment "world". -/
theorem hello_get_ok_witness :
    route (Request.mk "GET" "/hello/world" [] "" "") =
      Response.mk 200
        (some (Json.obj [("message", Json.str "Hello world!")])) :=
  hello_get_ok (Request.mk "GET" "/hello/world" [] "" "") "world"
    rfl rfl (by decide) (by decide)

/-- Claim C3: a request whose path matches neither registered route is
answered 404 with no custom body; a request whose path matches a route
but whose method is not GET is answered 405 with no custom body, never
200; in particular POST on "/" is answered 405. -/
theorem router_error_taxonomy (req : Request) :
    (matchPath req.path.data = none → route req = Response.mk 404 none) ∧
    (matchPath req.path.data ≠ none → req.method ≠ "GET" →
      route req = Response.mk 405 none) ∧
    (req.method = "POST" → req.path = "/" →
      route req = Response.mk 405 none) := by
  refine ⟨?_, ?_, ?_⟩
  · intro h
    simp [route, h]
  · intro h hm
    match hmp : matchPath req.path.data with
    | none => exact absurd hmp h
    | some RouteMatch.root => simp [route, hmp, hm]
    | some (RouteMatch.hello n) => simp [route, hmp, hm]
  · intro hm hp
    simp [route, hp, hm, matchPath]

/-- Witness for router_error_taxonomy: an unmatched path is answered
404, and POST on the matched root path is answered 405. -/
theorem router_error_taxonomy_witness :
    route (Request.mk "GET" "/nope" [] "" "") = Response.mk 404 none ∧
    route (Request.mk "POST" "/" [] "" "") = Response.mk 405 none ∧
    route (Request.mk "POST" "/" [] "" "") = Response.mk 405 none :=
  ⟨(router_error_taxonomy (Request.mk "GET" "/nope" [] "" "")).1 rfl,
   (router_error_taxonomy (Request.mk "POST" "/" [] "" "")).2.1
     (by decide) (by decide),
   (router_error_taxonomy (Request.mk "POST" "/" [] "" "")).2.2 rfl rfl⟩

/-- Claim C4: a GET request whose path is "/hello/" with an empty name
segment matches no route and is answered 404, not a greeting. -/
theorem hello_empty_segment_not_found (req : Request)
    (_hm : req.method = "GET") (hp : req.path = "/hello/") :
    route req = Response.mk 404 none := by
  have hmp : matchPath req.path.data = none := by
    rw [hp]
    exact rfl
  simp [route, hmp]

/-- Witness for hello_empty_segment_not_found at a concrete request. -/
theorem hello_empty_segment_not_found_witness :
    route (Request.mk "GET" "/hello/" [] "" "") = Response.mk 404 none :=
  hello_empty_segment_not_found (Request.mk "GET" "/hello/" [] "" "") rfl rfl

/-- Helper: the server loop is the pure per-request router mapped over
the trace. -/
theorem runServer_eq_map (st : AppState) (reqs : List Request) :
    runServer st reqs = reqs.map (fun r => route r) := by
  induction reqs with
  | nil => rfl
  | cons r rs ih => simp [runServer, handleStep, ih]

/-- Claim C5: handling a request mutates no state (the step returns the
state unchanged), the responses of a trace are a pure function of each
request alone, and repeating the same request anywhere in a trace yields
an identical response. -/
theorem pure_idempotent_server (st : AppState) (reqs : List Request) :
    (∀ req, (handleStep st req).1 = st) ∧
    (runServer st reqs = reqs.map (fun r => route r)) ∧
    (∀ (i j : Nat) (r : Request), reqs[i]? = some r → reqs[j]? = some r →
      (runServer st reqs)[i]? = (runServer st reqs)[j]?) := by
  refine ⟨fun req => rfl, runServer_eq_map st reqs, ?_⟩
  intro i j r hi hj
  rw [runServer_eq_map]
  simp [List.getElem?_map, hi, hj]

/-- Witness for pure_idempotent_server: a repeated request in a
two-request trace receives the same response both times. -/
theorem pure_idempotent_server_witness :
    (runServer ()
      [Request.mk "GET" "/" [] "" "", Request.mk "GET" "/" [] "" ""])[0]? =
    (runServer ()
      [Request.mk "GET" "/" [] "" "", Request.mk "GET" "/" [] "" ""])[1]? :=
  (pure_idempotent_server ()
      [Request.mk "GET" "/" [] "" "", Request.mk "GET" "/" [] "" ""]).2.2
    0 1 (Request.mk "GET" "/" [] "" "") rfl rfl

/-- Claim C6: every response with status 200 carries a JSON object body
whose message field is present and is a string. -/
theorem response_message_invariant (req : Request)
    (h : (route req).status = 200) :
    ∃ m : String,
      (route req).body = some (Json.obj [("message", Json.str m)]) := by
  by_cases hg : req.method = "GET"
  · match hmp : matchPath req.path.data with
    | none => simp [route, hmp] at h
    | some RouteMatch.root =>
        exact ⟨"Welcome to the FastAPI ECS Fargate app!",
          by simp [route, hmp, hg, read_root]⟩
    | some (RouteMatch.hello n) =>
        exact ⟨"Hello " ++ n ++ "!", by simp [route, hmp, hg, read_item]⟩
  · exfalso
    match hmp : matchPath req.path.data with
    | none => simp [route, hmp] at h
    | some RouteMatch.root => simp [route, hmp, hg] at h
    | some (RouteMatch.hello n) => simp [route, hmp, hg] at h

/-- Witness for response_message_invariant at the root route. -/
theorem response_message_invariant_witness :
    ∃ m : String,
      (route (Request.mk "GET" "/" [] "" "")).body =
        some (Json.obj [("message", Json.str m)]) :=
  response_message_invariant (Request.mk "GET" "/" [] "" "") rfl

/-- Claim C7: the URL-encoded request GET /hello/%E4%B8%96%E7%95%8C
decodes to the name 世界 and is answered 200 with message
"Hello 世界!". -/
theorem unicode_hello_ok :
    handleRaw "GET" "/hello/%E4%B8%96%E7%95%8C" =
      Response.mk 200
        (some (Json.obj [("message", Json.str "Hello 世界!")])) := rfl

/-- Claim C8: the hello route consumes exactly one segment after
/hello — the bare path "/hello" is answered 404, and any path placing a
further separator after "/hello/" is answered 404. -/
theorem hello_single_segment_only (req : Request) :
    (req.path = "/hello" → route req = Response.mk 404 none) ∧
    (∀ a b : String, req.path = "/hello/" ++ a ++ "/" ++ b →
      route req = Response.mk 404 none) := by
  constructor
  · intro hp
    have hmp : matchPath req.path.data = none := by
      rw [hp]
      exact rfl
    simp [route, hmp]
  · intro a b hp
    have hd : req.path.data =
        '/' :: 'h' :: 'e' :: 'l' :: 'l' :: 'o' :: '/' ::
          (a.data ++ ['/'] ++ b.data) := by
      rw [hp]
      show ((['/', 'h', 'e', 'l', 'l', 'o', '/'] ++ a.data) ++ ['/']) ++ b.data
          = _
      simp [List.append_assoc]
    have hmp : matchPath req.path.data = none := by
      rw [hd]
      show (if (a.data ++ ['/'] ++ b.data) = [] ∨ '/' ∈ (a.data ++ ['/'] ++ b.data)
            then none
            else some (RouteMatch.hello (String.mk (a.data ++ ['/'] ++ b.data)))) =
          none
      rw [if_pos (Or.inr (by simp))]
    simp [route, hmp]

/-- Witness for hello_single_segment_only on the two-segment path
/hello/a/b. -/
theorem hello_single_segment_only_witness :
    route (Request.mk "GET" "/hello/a/b" [] "" "") = Response.mk 404 none :=
  (hello_single_segment_only (Request.mk "GET" "/hello/a/b" [] "" "")).2
    "a" "b" rfl

/-- Claim C9: the response is a function of the request method and
decoded path alone — two requests agreeing on those but differing in
headers, query string or body receive identical responses. -/
theorem response_depends_only_on_method_path (r1 r2 : Request)
    (hm : r1.method = r2.method) (hp : r1.path = r2.path) :
    route r1 = route r2 := by
  unfold route
  rw [hm, hp]

/-- Witness for response_depends_only_on_method_path: two requests
differing only in headers, query string and body. -/
theorem response_depends_only_on_method_path_witness :
    route (Request.mk "GET" "/hello/test" [("x-extra", "1")] "a=b" "payload") =
      route (Request.mk "GET" "/hello/test" [] "" "") :=
  response_depends_only_on_method_path
    (Request.mk "GET" "/hello/test" [("x-extra", "1")] "a=b" "payload")
    (Request.mk "GET" "/hello/test" [] "" "") rfl rfl

/-- Claim C10: the hello greeting is injective in the name parameter —
distinct names produce distinct message values. -/
theorem greeting_injective (n1 n2 : String) (h : n1 ≠ n2) :
    read_item n1 ≠ read_item n2 := by
  intro he
  apply h
  have hs : "Hello " ++ n1 ++ "!" = "Hello " ++ n2 ++ "!" := by
    simpa [read_item] using he
  have hd : "Hello ".data ++ (n1.data ++ "!".data) =
      "Hello ".data ++ (n2.data ++ "!".data) := by
    have hc := congrArg String.data hs
    simpa [String.data_append, List.append_assoc] using hc
  have h1 : n1.data ++ "!".data = n2.data ++ "!".data :=
    List.append_cancel_left hd
  have h2 : n1.data = n2.data := List.append_cancel_right h1
  calc n1 = String.mk n1.data := rfl
    _ = String.mk n2.data := by rw [h2]
    _ = n2 := rfl

/-- Witness for greeting_injective at two concrete distinct names. -/
theorem greeting_injective_witness :
    read_item "alice" ≠ read_item "bob" :=
  greeting_injective "alice" "bob" (by decide)
